import Mathlib

/-!
Verification of the booking status lifecycle and audit trail of the
Jeerawala taxi-booking application (Django project `jirawala_tours_travels`,
app `booking`).

The embedding models, from the source:
  * the `Inquiry` (Booking) and `BookingStatusHistory` (Transition Log)
    records of `booking/models.py`;
  * `Inquiry.save` with its booking-id generation (`models.py`);
  * the `update_status`, `assign_car`, `remove_car` and `add_note` branches
    of `custom_admin_booking_detail` (`booking/views.py`);
  * the validation and creation logic of `InquirySerializer` and
    `BookingCreateSerializer` (`booking/serializers.py`), together with the
    HTTP creation endpoints wired in `booking/urls.py`.

Timestamps are natural numbers (unix seconds), monetary/decimal values are
integers; the four random digits drawn by `random.choices(string.digits, k=4)`
are modelled as four values of `Fin 10`.  Storage-layer failures that the
views catch (a failing `booking.save()` commit, a failing
`BookingStatusHistory.objects.create`) are modelled by explicit boolean
fault flags.
-/

namespace Jeerawala

/-- `Inquiry.STATUS_CHOICES` of `booking/models.py`: the closed status set. -/
def STATUS_CHOICES : List String :=
  ["pending", "confirmed", "in_progress", "completed", "cancelled"]

/-- `Inquiry.TRIP_CHOICES` of `booking/models.py`. -/
def TRIP_CHOICES : List String := ["one-way", "round-trip", "city"]

/-- A row of the `CarType` table (`booking/models.py`). -/
structure CarType where
  pk : Nat
  name : String
  rate_per_km : Int
  minimum_distance_cap : Int
  is_active : Bool
deriving Repr, DecidableEq

/-- A row of the `Car` table (`booking/models.py`). -/
structure Car where
  pk : Nat
  name : String
  car_type : Nat
  is_available : Bool
deriving Repr, DecidableEq

/-- A row of the `BookingStatusHistory` table (`booking/models.py`):
one Transition Log entry. -/
structure HistoryRow where
  inquiry_pk : Nat
  old_status : String
  new_status : String
  changed_by : String
  notes : String
deriving Repr, DecidableEq

/-- A row of the `Inquiry` table (`booking/models.py`): one Booking.
Foreign keys are carried as primary keys (`Option Nat`). -/
structure Booking where
  pk : Nat
  name : String
  email : String
  number : String
  origin : String
  destination : String
  datetime : Nat
  return_datetime : Option Nat
  car_type : Option Nat
  assigned_car : Option Nat
  trip_type : String
  distance_km : Int
  price : Int
  special_requests : String
  status : String
  booking_id : String
  created_at : Nat
  updated_at : Nat
  is_active : Bool
  admin_notes : Option String
deriving Repr, DecidableEq

/-- One random decimal digit, as the character `random.choices(string.digits)`
draws it. -/
def digitChar (d : Fin 10) : Char := Char.ofNat (48 + d.val)

/-- The 4-digit random suffix `''.join(random.choices(string.digits, k=4))`. -/
def randomSuffix (d : Fin 10 × Fin 10 × Fin 10 × Fin 10) : String :=
  String.mk [digitChar d.1, digitChar d.2.1, digitChar d.2.2.1, digitChar d.2.2.2]

/-- Booking-id generation as written in `Inquiry.save` (`booking/models.py`):
`"JTT{}{}".format(str(int(timezone.now().timestamp())), random_suffix)`. -/
def inquirySave_generate_booking_id (ts : Nat)
    (d : Fin 10 × Fin 10 × Fin 10 × Fin 10) : String :=
  "JTT" ++ toString ts ++ randomSuffix d

/-- Booking-id generation as written in `BookingCreateSerializer.create`
(`booking/serializers.py`), textually the same scheme as `Inquiry.save`. -/
def serializerCreate_generate_booking_id (ts : Nat)
    (d : Fin 10 × Fin 10 × Fin 10 × Fin 10) : String :=
  "JTT" ++ toString ts ++ randomSuffix d

/-- `Inquiry.save` (`booking/models.py`): generates a booking id only when
the stored one is empty; `updated_at` is refreshed by `auto_now`.
(The `clean()` decimal coercion is the identity here because the embedded
fields are already well-typed integers.) -/
def inquiry_save (now : Nat) (rand : Fin 10 × Fin 10 × Fin 10 × Fin 10)
    (b : Booking) : Booking :=
  if b.booking_id = "" then
    { b with booking_id := inquirySave_generate_booking_id now rand,
             updated_at := now }
  else
    { b with updated_at := now }

/-- The history row written by the `update_status` branch of
`custom_admin_booking_detail` (`booking/views.py`). -/
def statusHistoryRow (b : Booking) (oldS newS username : String) : HistoryRow :=
  { inquiry_pk := b.pk
    old_status := oldS
    new_status := newS
    changed_by := username
    notes := "Status updated by " ++ username }

/-- Outcome of one `update_status` POST on the admin booking-detail view. -/
inductive AdminUpdateOutcome
  | applied (b : Booking) (hist : List HistoryRow)
  | storageError (b : Booking) (hist : List HistoryRow)
  | invalidStatus (b : Booking) (hist : List HistoryRow)
deriving Repr, DecidableEq

/-- The `update_status` branch of `custom_admin_booking_detail`
(`booking/views.py` lines 1025-1059).  `saveOk` models whether
`booking.save(update_fields=['status', 'updated_at'])` commits; `histOk`
models whether `BookingStatusHistory.objects.create` succeeds — its failure
is caught, logged, and explicitly does not fail the whole operation.
A failing `booking.save` raises into the outer `except`, so the history
line is never reached there. -/
def custom_admin_update_status (saveOk histOk : Bool)
    (username target : String) (now : Nat)
    (b : Booking) (hist : List HistoryRow) : AdminUpdateOutcome :=
  if target ≠ "" ∧ target ∈ STATUS_CHOICES then
    if saveOk then
      let b2 := { b with status := target, updated_at := now }
      let hist2 :=
        if histOk then hist ++ [statusHistoryRow b b.status target username]
        else hist
      .applied b2 hist2
    else .storageError b hist
  else .invalidStatus b hist

/-- Outcome of one `assign_car` POST on the admin booking-detail view. -/
inductive AssignCarOutcome
  | assigned (b : Booking) (hist : List HistoryRow)
  | notFound (b : Booking) (hist : List HistoryRow)
deriving Repr, DecidableEq

/-- The `assign_car` branch of `custom_admin_booking_detail`
(`booking/views.py` lines 1061-1078): `get_object_or_404(Car, id=car_id)`,
then `booking.save(update_fields=['assigned_car', 'updated_at'])`.
No history row is written. -/
def custom_admin_assign_car (cars : List Car) (carId : Nat) (now : Nat)
    (b : Booking) (hist : List HistoryRow) : AssignCarOutcome :=
  match cars.find? (fun c => c.pk = carId) with
  | some c => .assigned { b with assigned_car := some c.pk, updated_at := now } hist
  | none => .notFound b hist

/-- The `remove_car` branch of `custom_admin_booking_detail`
(`booking/views.py` lines 1080-1098): clears `assigned_car`,
`booking.save(update_fields=['assigned_car', 'updated_at'])`.
No history row is written. -/
def custom_admin_remove_car (now : Nat) (b : Booking)
    (hist : List HistoryRow) : Booking × List HistoryRow :=
  ({ b with assigned_car := none, updated_at := now }, hist)

/-- The `add_note` branch of `custom_admin_booking_detail`
(`booking/views.py` lines 1100-1110): stores the note,
`booking.save(update_fields=['admin_notes', 'updated_at'])`. -/
def custom_admin_add_note (note : String) (now : Nat) (b : Booking) : Booking :=
  { b with admin_notes := some note, updated_at := now }

/-- The whole persistent state the booking workflow touches. -/
structure DB where
  carTypes : List CarType
  bookings : List Booking
  history : List HistoryRow
deriving Repr, DecidableEq

/-- The database `INSERT` of a new `Inquiry` row, with the `unique=True`
constraint on `booking_id` (`booking/models.py` line 305): a duplicate id
makes the insert raise instead of storing a second row. -/
def insert_booking (db : DB) (b : Booking) : Except String DB :=
  if db.bookings.any (fun x => x.booking_id = b.booking_id) then
    .error "UNIQUE constraint failed: booking_id"
  else
    .ok { db with bookings := db.bookings ++ [b] }

/-- The payload of `BookingCreateSerializer` (`booking/serializers.py`). -/
structure BookingCreateInput where
  name : String
  email : String
  phone : String
  tripType : String
  pickupLocation : String
  dropoffLocation : String
  pickupDate : Nat
  dropoffDate : Option Nat
  carType : String
  totalPrice : Int
  distance : Int
  specialRequests : String
deriving Repr, DecidableEq

/-- `BookingCreateSerializer` validation (`booking/serializers.py`
lines 52-78): `validate_pickupDate` rejects past pickups,
`validate_totalPrice` / `validate_distance` reject non-positive values, and
the object-level `validate` enforces the round-trip rules.  `tripType` is a
plain `CharField`, so no trip-type choice check runs on this path. -/
def bookingCreate_validate (now : Nat) (d : BookingCreateInput) :
    Except String BookingCreateInput :=
  if d.pickupDate < now then .error "Pickup date cannot be in the past."
  else if d.totalPrice ≤ 0 then .error "Total price must be greater than 0."
  else if d.distance ≤ 0 then .error "Distance must be greater than 0."
  else if d.tripType = "round-trip" then
    match d.dropoffDate with
    | none => .error "Drop-off date is required for round trips."
    | some r =>
      if r ≤ d.pickupDate then .error "Drop-off date must be after pickup date."
      else .ok d
  else .ok d

/-- Python `str.capitalize()` applied to an already-lowercased string:
upper-case the first character.  (`str.capitalize` also lowercases the tail,
which is the identity here because `BookingCreateSerializer.create` applies
it to `validated_data['carType'].lower()`.) -/
def capitalizeLowered (s : String) : String :=
  match s.toList with
  | [] => ""
  | c :: rest => String.mk (c.toUpper :: rest)

/-- `CarType.objects.get_or_create(name__iexact=car_type_name, defaults=...)`
from `BookingCreateSerializer.create` (`booking/serializers.py` lines 86-97):
a case-insensitive name lookup; on a miss a new active row is created with
the default per-km rate (12 for "hatchback", 15 for "sedan", 18 otherwise).
`newPk` is the primary key the database would assign to the created row.
Returns the referenced row, the updated table, and the created flag. -/
def get_or_create_car_type (cts : List CarType) (rawName : String)
    (newPk : Nat) : CarType × List CarType × Bool :=
  let n := rawName.toLower
  match cts.find? (fun ct => ct.name.toLower = n) with
  | some ct => (ct, cts, false)
  | none =>
      let ct : CarType :=
        { pk := newPk
          name := capitalizeLowered n
          rate_per_km :=
            if n = "hatchback" then 12 else if n = "sedan" then 15 else 18
          minimum_distance_cap := 0
          is_active := true }
      (ct, cts ++ [ct], true)

/-- The initial Transition Log row written by
`BookingCreateSerializer.create` (`booking/serializers.py` lines 138-145). -/
def initialHistoryRow (pk : Nat) : HistoryRow :=
  { inquiry_pk := pk
    old_status := ""
    new_status := "pending"
    changed_by := "Customer"
    notes := "Booking created by customer" }

/-- The `Inquiry` row `BookingCreateSerializer.create` hands to
`Inquiry.objects.create` (`booking/serializers.py` lines 105-122):
field-by-field mapping of the frontend payload, `status='pending'`, the
freshly generated booking id, and the referenced car type. -/
def mkCreateBooking (now : Nat) (rand : Fin 10 × Fin 10 × Fin 10 × Fin 10)
    (pk : Nat) (d : BookingCreateInput) (ctRef : Nat) : Booking :=
  { pk := pk
    name := d.name
    email := d.email
    number := d.phone
    origin := d.pickupLocation
    destination := d.dropoffLocation
    datetime := d.pickupDate
    return_datetime := d.dropoffDate
    car_type := some ctRef
    assigned_car := none
    trip_type := d.tripType
    distance_km := d.distance
    price := d.totalPrice
    special_requests := d.specialRequests
    status := "pending"
    booking_id := serializerCreate_generate_booking_id now rand
    created_at := now
    updated_at := now
    is_active := true
    admin_notes := none }

/-- `BookingCreateSerializer.create` (`booking/serializers.py` lines 81-148):
get-or-create the car type, generate a booking id, insert the `Inquiry` with
`status='pending'`, call `send_booking_email` (which swallows every error
internally, `booking/send_email.py`), then append the initial history row.
`pk` / `ctPk` are the primary keys the database would assign. -/
def bookingCreateSerializer_create (now : Nat)
    (rand : Fin 10 × Fin 10 × Fin 10 × Fin 10) (pk ctPk : Nat)
    (d : BookingCreateInput) (db : DB) : Except String (Booking × DB) :=
  let r := get_or_create_car_type db.carTypes d.carType ctPk
  let b := mkCreateBooking now rand pk d r.1.pk
  match insert_booking { db with carTypes := r.2.1 } b with
  | .error e => .error e
  | .ok db2 => .ok (b, { db2 with history := db2.history ++ [initialHistoryRow pk] })

/-- The payload of `InquirySerializer` (`booking/serializers.py` lines 6-33).
`booking_id`, `id`, `created_at`, `updated_at` are read-only and absent. -/
structure InquiryInput where
  name : String
  email : String
  number : String
  origin : String
  destination : String
  datetime : Nat
  return_datetime : Option Nat
  car_type : Option Nat
  trip_type : String
  distance_km : Int
  price : Int
  special_requests : String
  status : Option String
deriving Repr, DecidableEq

/-- A supplied foreign key that references no existing `CarType` row. -/
def invalid_fk (cts : List CarType) (c : Option Nat) : Bool :=
  match c with
  | some k => !(cts.any (fun ct => ct.pk = k))
  | none => false

/-- A supplied value that falls outside a choice field's closed set. -/
def invalid_choice (choices : List String) (s : Option String) : Bool :=
  match s with
  | some v => !(choices.contains v)
  | none => false

/-- `InquirySerializer` validation (`booking/serializers.py` lines 21-33)
plus the field checks DRF derives from the model: `validate_datetime`
rejects past pickups; `car_type` must reference an existing row;
`trip_type` and `status` are choice fields over the closed sets;
`distance_km` / `price` carry `MinValueValidator(0)`; the object-level
`validate` enforces the round-trip rules. -/
def inquirySerializer_validate (now : Nat) (cts : List CarType)
    (d : InquiryInput) : Except String InquiryInput :=
  if d.datetime < now then .error "Pickup date cannot be in the past."
  else if invalid_fk cts d.car_type then
    .error "Invalid pk - object does not exist."
  else if invalid_choice TRIP_CHOICES (some d.trip_type) then
    .error "trip_type is not a valid choice."
  else if invalid_choice STATUS_CHOICES d.status then
    .error "status is not a valid choice."
  else if d.distance_km < 0 then .error "Ensure distance_km is at least 0."
  else if d.price < 0 then .error "Ensure price is at least 0."
  else if d.trip_type = "round-trip" then
    match d.return_datetime with
    | none => .error "Return date is required for round trips."
    | some r =>
      if r ≤ d.datetime then .error "Return date must be after pickup date."
      else .ok d
  else .ok d

/-- The `Inquiry` row the default `ModelSerializer` create of
`InquirySerializer` hands to `Inquiry.objects.create`: the validated
payload, `status` defaulting to `'pending'` when omitted, and an empty
`booking_id` (the field is read-only on this serializer). -/
def mkViewsetBooking (now : Nat) (pk : Nat) (d : InquiryInput) : Booking :=
  { pk := pk
    name := d.name
    email := d.email
    number := d.number
    origin := d.origin
    destination := d.destination
    datetime := d.datetime
    return_datetime := d.return_datetime
    car_type := d.car_type
    assigned_car := none
    trip_type := d.trip_type
    distance_km := d.distance_km
    price := d.price
    special_requests := d.special_requests
    status := d.status.getD "pending"
    booking_id := ""
    created_at := now
    updated_at := now
    is_active := true
    admin_notes := none }

/-- The default `ModelSerializer` create of `InquirySerializer`, as the
`ModelViewSet` create action runs it (`booking/views.py` line 1703,
POST `/api/inquiry/`): `Inquiry.objects.create(**validated_data)`, which
calls `Inquiry.save` — `booking_id` is read-only and so starts empty and is
generated there; `status` defaults to `'pending'` when omitted.  No
`BookingStatusHistory` row is written on this path. -/
def inquirySerializer_create (now : Nat)
    (rand : Fin 10 × Fin 10 × Fin 10 × Fin 10) (pk : Nat)
    (d : InquiryInput) (db : DB) : Except String (Booking × DB) :=
  let b := inquiry_save now rand (mkViewsetBooking now pk d)
  match insert_booking db b with
  | .error e => .error e
  | .ok db2 => .ok (b, db2)

/-- POST `/api/inquiry/create-booking/`, POST `/api/bookings/`
(`BookingAPIView`) and the serializer stage of POST `/api/car-booking/`
(`car_specific_booking`) all run `BookingCreateSerializer(data=...)`,
`is_valid`, then `save`: a validation error means no booking is created. -/
def run_bookingCreate_path (now : Nat)
    (rand : Fin 10 × Fin 10 × Fin 10 × Fin 10) (pk ctPk : Nat)
    (d : BookingCreateInput) (db : DB) : Except String (Booking × DB) :=
  match bookingCreate_validate now d with
  | .error e => .error e
  | .ok d2 => bookingCreateSerializer_create now rand pk ctPk d2 db

/-- POST `/api/inquiry/` (the `ModelViewSet` create action of
`InquiryViewSet`): `InquirySerializer` validation then the default
model-serializer create. -/
def run_inquiryViewset_create (now : Nat)
    (rand : Fin 10 × Fin 10 × Fin 10 × Fin 10) (pk : Nat)
    (d : InquiryInput) (db : DB) : Except String (Booking × DB) :=
  match inquirySerializer_validate now db.carTypes d with
  | .error e => .error e
  | .ok d2 => inquirySerializer_create now rand pk d2 db

/-- The payload of the `submit_booking` view (`booking/views.py`
lines 2119-2212).  This function is defined in the source but is wired into
no urlconf (`booking/urls.py` neither imports nor routes it), so it is not
an exposed creation path; it is embedded here because it documents the one
creation routine with no date validation and no initial history row. -/
structure SubmitBookingInput where
  name : String
  email : String
  number : String
  origin : String
  destination : String
  datetime : Nat
  return_datetime : Option Nat
  car_type_id : Option Nat
  trip_type : String
  distance_km : Int
  price : Int
  special_requests : String
deriving Repr, DecidableEq

/-- `submit_booking` (`booking/views.py` lines 2119-2212): checks only that
the required fields are non-empty and that the car type exists and is
active, then creates the `Inquiry` with `status='pending'` directly — no
round-trip check, no past-pickup check, no return-after-pickup check, and
no `BookingStatusHistory` row.  `booking_id` is generated by
`Inquiry.save`. -/
def submit_booking (now : Nat) (rand : Fin 10 × Fin 10 × Fin 10 × Fin 10)
    (pk : Nat) (d : SubmitBookingInput) (db : DB) :
    Except String (Booking × DB) :=
  if d.name = "" ∨ d.email = "" ∨ d.number = "" ∨ d.origin = "" ∨
      d.destination = "" ∨ d.car_type_id = none then
    .error "Please fill in all required fields."
  else
    match db.carTypes.find?
        (fun ct => d.car_type_id = some ct.pk ∧ ct.is_active) with
    | none => .error "Invalid car type selected."
    | some ct =>
        let b0 : Booking :=
          { pk := pk
            name := d.name
            email := d.email
            number := d.number
            origin := d.origin
            destination := d.destination
            datetime := d.datetime
            return_datetime := d.return_datetime
            car_type := some ct.pk
            assigned_car := none
            trip_type := d.trip_type
            distance_km := d.distance_km
            price := d.price
            special_requests := d.special_requests
            status := "pending"
            booking_id := ""
            created_at := now
            updated_at := now
            is_active := true
            admin_notes := none }
        let b := inquiry_save now rand b0
        match insert_booking db b with
        | .error e => .error e
        | .ok db2 => .ok (b, db2)

/-- The booking identifiers currently stored. -/
def storeBookingIds (db : DB) : List String := db.bookings.map Booking.booking_id

/-- The store invariant of §8 of the spec: every stored booking id is
non-empty and ids are pairwise distinct. -/
def StoreInv (db : DB) : Prop :=
  (∀ x ∈ db.bookings, x.booking_id ≠ "") ∧ (storeBookingIds db).Nodup

/-- The rejection conditions the spec demands of creation: a round trip
without a return time, a round trip whose return time is not strictly after
the pickup, or a pickup in the past at submission time. -/
def RejectedDates (tripType : String) (pickup : Nat) (ret : Option Nat)
    (now : Nat) : Prop :=
  (tripType = "round-trip" ∧ ret = none) ∨
  (tripType = "round-trip" ∧ ∃ r, ret = some r ∧ r ≤ pickup) ∨
  pickup < now

/-- The atomicity property claimed of the admin status update: in every
reachable outcome either both the status write and the matching log append
took effect, or neither write is visible. -/
def StatusUpdateAtomic : Prop :=
  ∀ (saveOk histOk : Bool) (username target : String) (now : Nat)
    (b : Booking) (hist : List HistoryRow),
    match custom_admin_update_status saveOk histOk username target now b hist with
    | .applied _ hist2 =>
        hist2 = hist ++ [statusHistoryRow b b.status target username]
    | .storageError b2 hist2 => b2 = b ∧ hist2 = hist
    | .invalidStatus b2 hist2 => b2 = b ∧ hist2 = hist

/-- The creation-event property claimed of every exposed creation path:
a successful creation leaves the booking pending and appends exactly the
initial Transition Log row. -/
def EveryCreationLogsCreationEvent : Prop :=
  (∀ (now : Nat) (rand : Fin 10 × Fin 10 × Fin 10 × Fin 10) (pk : Nat)
      (d : InquiryInput) (db : DB) (b : Booking) (db2 : DB),
    run_inquiryViewset_create now rand pk d db = .ok (b, db2) →
      b.status = "pending" ∧
      db2.history = db.history ++ [initialHistoryRow pk]) ∧
  (∀ (now : Nat) (rand : Fin 10 × Fin 10 × Fin 10 × Fin 10) (pk ctPk : Nat)
      (d : BookingCreateInput) (db : DB) (b : Booking) (db2 : DB),
    run_bookingCreate_path now rand pk ctPk d db = .ok (b, db2) →
      b.status = "pending" ∧
      db2.history = db.history ++ [initialHistoryRow pk])

/-- An empty store. -/
def emptyDB : DB := { carTypes := [], bookings := [], history := [] }

/-- A concrete stored booking used by witnesses and counterexamples. -/
def sampleBooking : Booking :=
  { pk := 1
    name := "Asha"
    email := "asha@example.com"
    number := "9876543210"
    origin := "Ahmedabad"
    destination := "Udaipur"
    datetime := 4102444800
    return_datetime := none
    car_type := none
    assigned_car := none
    trip_type := "one-way"
    distance_km := 250
    price := 3750
    special_requests := ""
    status := "pending"
    booking_id := "JTT17000000000042"
    created_at := 1700000000
    updated_at := 1700000000
    is_active := true
    admin_notes := none }

/-- A concrete valid payload for the plain `/api/inquiry/` create action. -/
def sampleViewsetInput : InquiryInput :=
  { name := "Ravi"
    email := "ravi@example.com"
    number := "9000000000"
    origin := "Surat"
    destination := "Mumbai"
    datetime := 4102444800
    return_datetime := none
    car_type := none
    trip_type := "one-way"
    distance_km := 280
    price := 4200
    special_requests := ""
    status := none }

/-- A concrete valid payload for the `BookingCreateSerializer` paths. -/
def sampleCreateInput : BookingCreateInput :=
  { name := "Meera"
    email := "meera@example.com"
    phone := "9111111111"
    tripType := "one-way"
    pickupLocation := "Vadodara"
    dropoffLocation := "Pune"
    pickupDate := 4102444800
    dropoffDate := none
    carType := "sedan"
    totalPrice := 6000
    distance := 420
    specialRequests := "" }

/-- A round-trip creation payload with no return time, for the
`BookingCreateSerializer` paths. -/
def sampleBadCreateInput : BookingCreateInput :=
  { sampleCreateInput with tripType := "round-trip", dropoffDate := none }

/-- A round-trip creation payload with no return time, for the
`/api/inquiry/` path. -/
def sampleBadViewsetInput : InquiryInput :=
  { sampleViewsetInput with trip_type := "round-trip", return_datetime := none }

/-- The concrete outcome of the `/api/inquiry/` create action on the sample
payload over an empty store. -/
def viewsetRunResult : Except String (Booking × DB) :=
  run_inquiryViewset_create 1700000000 ⟨0, 0, 0, 0⟩ 1 sampleViewsetInput emptyDB

/-- The booking produced by `viewsetRunResult`. -/
def viewsetRunBooking : Booking :=
  match viewsetRunResult with
  | .ok p => p.1
  | .error _ => sampleBooking

/-- The store produced by `viewsetRunResult`. -/
def viewsetRunDB : DB :=
  match viewsetRunResult with
  | .ok p => p.2
  | .error _ => emptyDB

/-- The concrete outcome of a `BookingCreateSerializer` creation on the
sample payload, run over the store `viewsetRunDB` already holding one
booking. -/
def createRunResult : Except String (Booking × DB) :=
  run_bookingCreate_path 1700000000 ⟨0, 0, 0, 1⟩ 2 1 sampleCreateInput viewsetRunDB

/-- The booking produced by `createRunResult`. -/
def createRunBooking : Booking :=
  match createRunResult with
  | .ok p => p.1
  | .error _ => sampleBooking

/-- The store produced by `createRunResult`. -/
def createRunDB : DB :=
  match createRunResult with
  | .ok p => p.2
  | .error _ => emptyDB

/-- A member of the closed status set is a non-empty string. -/
theorem mem_status_choices_ne_empty {s : String}
    (h : s ∈ STATUS_CHOICES) : s ≠ "" := by
  fin_cases h <;> decide

/-- Fault-free admin status update with a valid non-empty target: the
booking takes the target status, `updated_at` is refreshed, and exactly the
matching history row is appended. -/
theorem update_status_valid_spec (username target : String) (now : Nat)
    (b : Booking) (hist : List HistoryRow) (hne : target ≠ "")
    (hmem : target ∈ STATUS_CHOICES) :
    custom_admin_update_status true true username target now b hist =
      .applied { b with status := target, updated_at := now }
        (hist ++ [statusHistoryRow b b.status target username]) := by
  unfold custom_admin_update_status
  rw [if_pos ⟨hne, hmem⟩]
  rfl

/-- Evaluation of the admin status update at a valid target, for arbitrary
storage-fault flags. -/
theorem update_status_valid_eq (saveOk histOk : Bool)
    (username target : String) (now : Nat) (b : Booking)
    (hist : List HistoryRow) (hval : target ≠ "" ∧ target ∈ STATUS_CHOICES) :
    custom_admin_update_status saveOk histOk username target now b hist =
      if saveOk then
        .applied { b with status := target, updated_at := now }
          (if histOk then hist ++ [statusHistoryRow b b.status target username]
           else hist)
      else .storageError b hist := by
  unfold custom_admin_update_status
  rw [if_pos hval]

/-- C1: "For every status update on a booking, writing the new status to
the Booking record and appending the corresponding Transition Log row
happen as a single atomic unit: either both writes take effect or neither
is visibly applied" — refuted: the view saves the booking first and then
swallows any failure of the history insert, so a reachable outcome changes
the status while appending no log row. -/
theorem C1_status_update_not_atomic : ¬ StatusUpdateAtomic := by
  intro h
  have h2 := h true false "admin" "confirmed" 7 sampleBooking []
  have h3 : custom_admin_update_status true false "admin" "confirmed" 7
      sampleBooking [] =
      .applied { sampleBooking with status := "confirmed", updated_at := 7 }
        [] := rfl
  rw [h3] at h2
  exact absurd h2 (by decide)

/-- C1 (amended): the two writes are not atomic — when the history insert
fails the status change alone is applied.  What does hold: in an applied
outcome the booking carries the target status and the log either gained
exactly the matching row or (only when the history insert failed) nothing,
and every newly appended row records exactly the transition the booking now
reflects; when the booking save fails or the target is invalid, neither
write is visible. -/
theorem C1_status_update_one_sided_atomicity
    (saveOk histOk : Bool) (username target : String) (now : Nat)
    (b : Booking) (hist : List HistoryRow) :
    match custom_admin_update_status saveOk histOk username target now b hist with
    | .applied b2 hist2 =>
        b2.status = target ∧ b2.updated_at = now ∧
        (hist2 = hist ++ [statusHistoryRow b b.status target username] ∨
          (histOk = false ∧ hist2 = hist)) ∧
        (∀ r ∈ hist2, r ∉ hist →
          r.old_status = b.status ∧ r.new_status = b2.status)
    | .storageError b2 hist2 => b2 = b ∧ hist2 = hist
    | .invalidStatus b2 hist2 => b2 = b ∧ hist2 = hist := by
  by_cases hval : target ≠ "" ∧ target ∈ STATUS_CHOICES
  · rw [update_status_valid_eq saveOk histOk username target now b hist hval]
    cases saveOk with
    | false => exact ⟨rfl, rfl⟩
    | true =>
        cases histOk with
        | false => exact ⟨rfl, rfl, Or.inr ⟨rfl, rfl⟩, fun r hr hnr => absurd hr hnr⟩
        | true =>
            refine ⟨rfl, rfl, Or.inl rfl, ?_⟩
            intro r hr hnr
            rcases List.mem_append.1 hr with hl | hl
            · exact absurd hl hnr
            · rcases List.mem_singleton.1 hl with rfl
              exact ⟨rfl, rfl⟩
  · unfold custom_admin_update_status
    rw [if_neg hval]
    exact ⟨rfl, rfl⟩

/-- C2: a status update with a target inside the closed status set appends
exactly one Transition Log row whose `old_status` is the booking's status
immediately before the update and whose `new_status` is the target; the
booking's status becomes the target and `updated_at` is refreshed. -/
theorem C2_valid_update_appends_matching_row
    (username target : String) (now : Nat) (b : Booking)
    (hist : List HistoryRow) (hmem : target ∈ STATUS_CHOICES) :
    custom_admin_update_status true true username target now b hist =
      .applied { b with status := target, updated_at := now }
        (hist ++ [{ inquiry_pk := b.pk
                    old_status := b.status
                    new_status := target
                    changed_by := username
                    notes := "Status updated by " ++ username }]) :=
  update_status_valid_spec username target now b hist
    (mem_status_choices_ne_empty hmem) hmem

/-- Witness for C2 at a concrete booking and target. -/
theorem C2_valid_update_appends_matching_row_witness :
    custom_admin_update_status true true "admin1" "confirmed" 9
        sampleBooking [] =
      .applied { sampleBooking with status := "confirmed", updated_at := 9 }
        ([] ++ [{ inquiry_pk := sampleBooking.pk
                  old_status := sampleBooking.status
                  new_status := "confirmed"
                  changed_by := "admin1"
                  notes := "Status updated by " ++ "admin1" }]) :=
  C2_valid_update_appends_matching_row "admin1" "confirmed" 9 sampleBooking []
    (by decide)

/-- C3: a status update whose target lies outside the closed status set is
rejected ("Invalid status selected."): no Booking field changes and no
Transition Log row is appended, whatever the storage layer would have
done. -/
theorem C3_invalid_update_is_noop
    (saveOk histOk : Bool) (username target : String) (now : Nat)
    (b : Booking) (hist : List HistoryRow)
    (hmem : target ∉ STATUS_CHOICES) :
    custom_admin_update_status saveOk histOk username target now b hist =
      .invalidStatus b hist := by
  unfold custom_admin_update_status
  rw [if_neg (fun hc => hmem hc.2)]

/-- Witness for C3 at the concrete invalid target "bogus". -/
theorem C3_invalid_update_is_noop_witness :
    custom_admin_update_status true true "admin1" "bogus" 9 sampleBooking [] =
      .invalidStatus sampleBooking [] :=
  C3_invalid_update_is_noop true true "admin1" "bogus" 9 sampleBooking []
    (by decide)

/-- C8: updating twice in a row to the same valid target appends two
distinct Transition Log rows; the second records `old_status = new_status`.
Repeated updates are never deduplicated in the ledger. -/
theorem C8_repeated_update_appends_two_rows
    (username target : String) (now1 now2 : Nat) (b : Booking)
    (hist : List HistoryRow) (hmem : target ∈ STATUS_CHOICES) :
    custom_admin_update_status true true username target now1 b hist =
      .applied { b with status := target, updated_at := now1 }
        (hist ++ [statusHistoryRow b b.status target username]) ∧
    custom_admin_update_status true true username target now2
        { b with status := target, updated_at := now1 }
        (hist ++ [statusHistoryRow b b.status target username]) =
      .applied { b with status := target, updated_at := now2 }
        (hist ++ [statusHistoryRow b b.status target username,
                  statusHistoryRow { b with status := target, updated_at := now1 }
                    target target username]) ∧
    (statusHistoryRow { b with status := target, updated_at := now1 }
        target target username).old_status =
      (statusHistoryRow { b with status := target, updated_at := now1 }
        target target username).new_status := by
  have hne := mem_status_choices_ne_empty hmem
  refine ⟨update_status_valid_spec username target now1 b hist hne hmem, ?_, rfl⟩
  have h2 := update_status_valid_spec username target now2
    { b with status := target, updated_at := now1 }
    (hist ++ [statusHistoryRow b b.status target username]) hne hmem
  simpa [List.append_assoc] using h2

/-- Witness for C8 at a concrete booking and target. -/
theorem C8_repeated_update_appends_two_rows_witness :
    custom_admin_update_status true true "admin1" "confirmed" 3
      sampleBooking [] =
      .applied { sampleBooking with status := "confirmed", updated_at := 3 }
        ([] ++ [statusHistoryRow sampleBooking sampleBooking.status
                  "confirmed" "admin1"]) ∧
    custom_admin_update_status true true "admin1" "confirmed" 4
        { sampleBooking with status := "confirmed", updated_at := 3 }
        ([] ++ [statusHistoryRow sampleBooking sampleBooking.status
                  "confirmed" "admin1"]) =
      .applied { sampleBooking with status := "confirmed", updated_at := 4 }
        ([] ++ [statusHistoryRow sampleBooking sampleBooking.status
                  "confirmed" "admin1",
                statusHistoryRow
                  { sampleBooking with status := "confirmed", updated_at := 3 }
                  "confirmed" "confirmed" "admin1"]) ∧
    (statusHistoryRow
        { sampleBooking with status := "confirmed", updated_at := 3 }
        "confirmed" "confirmed" "admin1").old_status =
      (statusHistoryRow
        { sampleBooking with status := "confirmed", updated_at := 3 }
        "confirmed" "confirmed" "admin1").new_status :=
  C8_repeated_update_appends_two_rows "admin1" "confirmed" 3 4 sampleBooking []
    (by decide)

/-- C9: assigning or clearing the concrete car changes only the
`assigned_car` field and the `updated_at` timestamp — the status and every
other Booking field are untouched and no Transition Log row is written;
when the requested car does not exist, nothing changes at all. -/
theorem C9_car_assignment_frame (cars : List Car) (carId : Nat) (now : Nat)
    (b : Booking) (hist : List HistoryRow) :
    (match custom_admin_assign_car cars carId now b hist with
     | .assigned b2 hist2 =>
         b2 = { b with assigned_car := b2.assigned_car, updated_at := now } ∧
         b2.status = b.status ∧ hist2 = hist
     | .notFound b2 hist2 => b2 = b ∧ hist2 = hist) ∧
    (custom_admin_remove_car now b hist).1 =
      { b with assigned_car := none, updated_at := now } ∧
    (custom_admin_remove_car now b hist).1.status = b.status ∧
    (custom_admin_remove_car now b hist).2 = hist := by
  refine ⟨?_, rfl, rfl, rfl⟩
  unfold custom_admin_assign_car
  cases h : cars.find? (fun c => c.pk = carId) with
  | none => exact ⟨rfl, rfl⟩
  | some c => exact ⟨rfl, rfl, rfl⟩

/-- C6: both booking-identifier generation sites — `Inquiry.save` in
`models.py` and `BookingCreateSerializer.create` in `serializers.py` —
produce bit-identical output of exactly the form `"JTT"`, then the unix
timestamp as a decimal string, then a 4-character decimal-digit suffix;
`Inquiry.save` installs it exactly when the stored id is empty. -/
theorem C6_booking_id_format (ts now : Nat)
    (d : Fin 10 × Fin 10 × Fin 10 × Fin 10) (b : Booking) :
    serializerCreate_generate_booking_id ts d =
      inquirySave_generate_booking_id ts d ∧
    (∃ s, inquirySave_generate_booking_id ts d = "JTT" ++ toString ts ++ s ∧
      s.length = 4 ∧ ∀ c ∈ s.toList, c.isDigit) ∧
    (inquiry_save now d b).booking_id =
      (if b.booking_id = "" then inquirySave_generate_booking_id now d
       else b.booking_id) := by
  refine ⟨rfl, ⟨randomSuffix d, rfl, rfl, ?_⟩, ?_⟩
  · have hd : ∀ k : Fin 10, (digitChar k).isDigit = true := by decide
    intro c hc
    rcases d with ⟨d1, d2, d3, d4⟩
    have hc2 : c = digitChar d1 ∨ c = digitChar d2 ∨ c = digitChar d3 ∨
        c = digitChar d4 := by simpa [randomSuffix, String.toList] using hc
    rcases hc2 with rfl | rfl | rfl | rfl <;> exact hd _
  · unfold inquiry_save
    split <;> rfl

/-- A generated booking identifier is never the empty string. -/
theorem generate_booking_id_ne_empty (ts : Nat)
    (d : Fin 10 × Fin 10 × Fin 10 × Fin 10) :
    inquirySave_generate_booking_id ts d ≠ "" := by
  intro h
  have h2 := congrArg String.length h
  rw [inquirySave_generate_booking_id, String.length_append,
    String.length_append] at h2
  have h3 : ("JTT" : String).length = 3 := rfl
  have h4 : ("" : String).length = 0 := rfl
  have h5 : (randomSuffix d).length = 4 := rfl
  omega

/-- A successful insert appends the row and certifies the id was fresh. -/
theorem insert_booking_ok (db : DB) (b : Booking) (db2 : DB)
    (h : insert_booking db b = .ok db2) :
    db2 = { db with bookings := db.bookings ++ [b] } ∧
    b.booking_id ∉ storeBookingIds db := by
  unfold insert_booking at h
  by_cases hc : db.bookings.any (fun x => x.booking_id = b.booking_id) = true
  · rw [if_pos hc] at h
    exact absurd h (by simp)
  · rw [if_neg hc] at h
    cases h
    refine ⟨rfl, ?_⟩
    intro hmem
    apply hc
    rcases List.mem_map.1 hmem with ⟨x, hx, hxe⟩
    exact List.any_eq_true.2 ⟨x, hx, by simpa using hxe⟩

/-- Inserting a fresh id succeeds and appends the row. -/
theorem insert_booking_new (db : DB) (b : Booking)
    (h : b.booking_id ∉ storeBookingIds db) :
    insert_booking db b = .ok { db with bookings := db.bookings ++ [b] } := by
  unfold insert_booking
  rw [if_neg ?hc]
  case hc =>
    intro hc
    rcases List.any_eq_true.1 hc with ⟨x, hx, hxe⟩
    exact h (List.mem_map.2 ⟨x, hx, by simpa using hxe⟩)

/-- Appending a booking with a fresh non-empty id preserves the store
invariant, stated on the raw row list. -/
theorem storeInv_of_append (db : DB) (b : Booking) (l : List Booking)
    (hInv : StoreInv db) (hne : b.booking_id ≠ "")
    (hnotin : b.booking_id ∉ storeBookingIds db)
    (hl : l = db.bookings ++ [b]) :
    (∀ x ∈ l, x.booking_id ≠ "") ∧ (l.map Booking.booking_id).Nodup := by
  subst hl
  constructor
  · intro x hx
    rcases List.mem_append.1 hx with h1 | h1
    · exact hInv.1 x h1
    · rcases List.mem_singleton.1 h1 with rfl
      exact hne
  · rw [List.map_append, List.nodup_append]
    refine ⟨hInv.2, List.nodup_singleton _, ?_⟩
    intro a ha hb
    rcases List.mem_singleton.1 hb with rfl
    exact hnotin ha

/-- Full description of a successful default-serializer create on the
`/api/inquiry/` path. -/
theorem inquirySerializer_create_ok (now : Nat)
    (rand : Fin 10 × Fin 10 × Fin 10 × Fin 10) (pk : Nat)
    (d : InquiryInput) (db : DB) (b : Booking) (db2 : DB)
    (h : inquirySerializer_create now rand pk d db = .ok (b, db2)) :
    b = inquiry_save now rand (mkViewsetBooking now pk d) ∧
    b.booking_id = inquirySave_generate_booking_id now rand ∧
    b.status = d.status.getD "pending" ∧
    db2 = { db with bookings := db.bookings ++ [b] } ∧
    b.booking_id ∉ storeBookingIds db := by
  simp only [inquirySerializer_create] at h
  cases hins : insert_booking db (inquiry_save now rand (mkViewsetBooking now pk d)) with
  | error e =>
      rw [hins] at h
      simp at h
  | ok db3 =>
      rw [hins] at h
      simp only [Except.ok.injEq, Prod.mk.injEq] at h
      obtain ⟨hb, hd⟩ := h
      subst hb
      subst hd
      have hio := insert_booking_ok db _ db3 hins
      exact ⟨rfl, rfl, rfl, hio.1, hio.2⟩

/-- Full description of a successful `BookingCreateSerializer.create`. -/
theorem bookingCreateSerializer_create_ok (now : Nat)
    (rand : Fin 10 × Fin 10 × Fin 10 × Fin 10) (pk ctPk : Nat)
    (d : BookingCreateInput) (db : DB) (b : Booking) (db2 : DB)
    (h : bookingCreateSerializer_create now rand pk ctPk d db = .ok (b, db2)) :
    b = mkCreateBooking now rand pk d
        (get_or_create_car_type db.carTypes d.carType ctPk).1.pk ∧
    b.status = "pending" ∧
    b.booking_id = serializerCreate_generate_booking_id now rand ∧
    db2.history = db.history ++ [initialHistoryRow pk] ∧
    db2.bookings = db.bookings ++ [b] ∧
    db2.carTypes = (get_or_create_car_type db.carTypes d.carType ctPk).2.1 ∧
    b.booking_id ∉ storeBookingIds db := by
  simp only [bookingCreateSerializer_create] at h
  cases hins : insert_booking
      { db with carTypes := (get_or_create_car_type db.carTypes d.carType ctPk).2.1 }
      (mkCreateBooking now rand pk d
        (get_or_create_car_type db.carTypes d.carType ctPk).1.pk) with
  | error e =>
      rw [hins] at h
      simp at h
  | ok db3 =>
      rw [hins] at h
      simp only [Except.ok.injEq, Prod.mk.injEq] at h
      obtain ⟨hb, hd⟩ := h
      subst hb
      subst hd
      have hio := insert_booking_ok _ _ db3 hins
      obtain ⟨hdb3, hnot⟩ := hio
      subst hdb3
      exact ⟨rfl, rfl, rfl, rfl, rfl, rfl, hnot⟩

/-- A successful `/api/inquiry/` creation factors through validation. -/
theorem run_inquiryViewset_create_ok (now : Nat)
    (rand : Fin 10 × Fin 10 × Fin 10 × Fin 10) (pk : Nat)
    (d : InquiryInput) (db : DB) (b : Booking) (db2 : DB)
    (h : run_inquiryViewset_create now rand pk d db = .ok (b, db2)) :
    ∃ d2, inquirySerializer_validate now db.carTypes d = .ok d2 ∧
      inquirySerializer_create now rand pk d2 db = .ok (b, db2) := by
  unfold run_inquiryViewset_create at h
  cases hv : inquirySerializer_validate now db.carTypes d with
  | error e =>
      rw [hv] at h
      simp at h
  | ok d2 =>
      rw [hv] at h
      exact ⟨d2, rfl, h⟩

/-- A successful `BookingCreateSerializer` creation factors through
validation. -/
theorem run_bookingCreate_path_ok (now : Nat)
    (rand : Fin 10 × Fin 10 × Fin 10 × Fin 10) (pk ctPk : Nat)
    (d : BookingCreateInput) (db : DB) (b : Booking) (db2 : DB)
    (h : run_bookingCreate_path now rand pk ctPk d db = .ok (b, db2)) :
    ∃ d2, bookingCreate_validate now d = .ok d2 ∧
      bookingCreateSerializer_create now rand pk ctPk d2 db = .ok (b, db2) := by
  unfold run_bookingCreate_path at h
  cases hv : bookingCreate_validate now d with
  | error e =>
      rw [hv] at h
      simp at h
  | ok d2 =>
      rw [hv] at h
      exact ⟨d2, rfl, h⟩

/-- Every outcome of the admin status update keeps the booking id. -/
theorem update_status_preserves_booking_id (saveOk histOk : Bool)
    (username target : String) (now : Nat) (b : Booking)
    (hist : List HistoryRow) :
    match custom_admin_update_status saveOk histOk username target now b hist with
    | .applied b2 _ => b2.booking_id = b.booking_id
    | .storageError b2 _ => b2.booking_id = b.booking_id
    | .invalidStatus b2 _ => b2.booking_id = b.booking_id := by
  by_cases hval : target ≠ "" ∧ target ∈ STATUS_CHOICES
  · rw [update_status_valid_eq saveOk histOk username target now b hist hval]
    cases saveOk
    · exact rfl
    · exact rfl
  · unfold custom_admin_update_status
    rw [if_neg hval]

/-- Every outcome of the admin car assignment keeps the booking id. -/
theorem assign_car_preserves_booking_id (cars : List Car) (carId : Nat)
    (now : Nat) (b : Booking) (hist : List HistoryRow) :
    match custom_admin_assign_car cars carId now b hist with
    | .assigned b2 _ => b2.booking_id = b.booking_id
    | .notFound b2 _ => b2.booking_id = b.booking_id := by
  unfold custom_admin_assign_car
  rcases hfind : cars.find? (fun c => c.pk = carId) with _ | c <;> rw [hfind]

/-- C7: booking identifiers are non-empty, unique across the store, and
immutable.  After a creation through each of the two serializer-backed
creation paths (run in sequence from an invariant store), both new bookings
carry non-empty ids, the store invariant (non-empty, pairwise-distinct ids)
still holds, and no later operation — status update, car assignment or
removal, note edit, or a further `Inquiry.save` — changes an assigned
booking id. -/
theorem C7_booking_id_unique_immutable
    (now1 now2 : Nat) (r1 r2 : Fin 10 × Fin 10 × Fin 10 × Fin 10)
    (pk1 pk2 ctPk : Nat) (d1 : InquiryInput) (d2 : BookingCreateInput)
    (db db2 db3 : DB) (b1 b2 : Booking)
    (hInv : StoreInv db)
    (hRun1 : run_inquiryViewset_create now1 r1 pk1 d1 db = .ok (b1, db2))
    (hRun2 : run_bookingCreate_path now2 r2 pk2 ctPk d2 db2 = .ok (b2, db3)) :
    b1.booking_id ≠ "" ∧ b2.booking_id ≠ "" ∧
    StoreInv db2 ∧ StoreInv db3 ∧
    (∀ (saveOk histOk : Bool) (username target : String) (now : Nat)
        (hist : List HistoryRow),
      match custom_admin_update_status saveOk histOk username target now b1 hist with
      | .applied b4 _ => b4.booking_id = b1.booking_id
      | .storageError b4 _ => b4.booking_id = b1.booking_id
      | .invalidStatus b4 _ => b4.booking_id = b1.booking_id) ∧
    (∀ (cars : List Car) (carId now : Nat) (hist : List HistoryRow),
      match custom_admin_assign_car cars carId now b1 hist with
      | .assigned b4 _ => b4.booking_id = b1.booking_id
      | .notFound b4 _ => b4.booking_id = b1.booking_id) ∧
    (∀ (now : Nat) (hist : List HistoryRow),
      (custom_admin_remove_car now b1 hist).1.booking_id = b1.booking_id) ∧
    (∀ (note : String) (now : Nat),
      (custom_admin_add_note note now b1).booking_id = b1.booking_id) ∧
    (∀ (now : Nat) (r : Fin 10 × Fin 10 × Fin 10 × Fin 10),
      (inquiry_save now r b1).booking_id = b1.booking_id) := by
  obtain ⟨e1, hv1, hc1⟩ := run_inquiryViewset_create_ok _ _ _ _ _ _ _ hRun1
  obtain ⟨hb1, hbid1, hst1, hdb2, hnot1⟩ :=
    inquirySerializer_create_ok _ _ _ _ _ _ _ hc1
  obtain ⟨e2, hv2, hc2⟩ := run_bookingCreate_path_ok _ _ _ _ _ _ _ _ hRun2
  obtain ⟨hb2, hst2, hbid2, hh2, hbk2, hct2, hnot2⟩ :=
    bookingCreateSerializer_create_ok _ _ _ _ _ _ _ _ hc2
  have hne1 : b1.booking_id ≠ "" := by
    rw [hbid1]
    exact generate_booking_id_ne_empty now1 r1
  have hne2 : b2.booking_id ≠ "" := by
    rw [hbid2]
    exact generate_booking_id_ne_empty now2 r2
  have hInv2 : StoreInv db2 := by
    rw [hdb2]
    exact storeInv_of_append db b1 _ hInv hne1 hnot1 rfl
  have hInv3 : StoreInv db3 :=
    storeInv_of_append db2 b2 db3.bookings hInv2 hne2 hnot2 hbk2
  refine ⟨hne1, hne2, hInv2, hInv3, ?_, ?_, ?_, ?_, ?_⟩
  · intro saveOk histOk username target now hist
    exact update_status_preserves_booking_id saveOk histOk username target now b1 hist
  · intro cars carId now hist
    exact assign_car_preserves_booking_id cars carId now b1 hist
  · intro now hist
    rfl
  · intro note now
    rfl
  · intro now r
    unfold inquiry_save
    rw [if_neg hne1]

/-- Witness for C7: the concrete two-creation scenario from the empty
store, with every later operation instantiated at concrete inputs. -/
theorem C7_booking_id_unique_immutable_witness :
    viewsetRunBooking.booking_id ≠ "" ∧ createRunBooking.booking_id ≠ "" ∧
    StoreInv viewsetRunDB ∧ StoreInv createRunDB ∧
    (match custom_admin_update_status true true "admin1" "confirmed" 5
        viewsetRunBooking [] with
      | .applied b4 _ => b4.booking_id = viewsetRunBooking.booking_id
      | .storageError b4 _ => b4.booking_id = viewsetRunBooking.booking_id
      | .invalidStatus b4 _ => b4.booking_id = viewsetRunBooking.booking_id) ∧
    (match custom_admin_assign_car [] 1 5 viewsetRunBooking [] with
      | .assigned b4 _ => b4.booking_id = viewsetRunBooking.booking_id
      | .notFound b4 _ => b4.booking_id = viewsetRunBooking.booking_id) ∧
    (custom_admin_remove_car 5 viewsetRunBooking []).1.booking_id =
      viewsetRunBooking.booking_id ∧
    (custom_admin_add_note "vip" 5 viewsetRunBooking).booking_id =
      viewsetRunBooking.booking_id ∧
    (inquiry_save 5 ⟨1, 2, 3, 4⟩ viewsetRunBooking).booking_id =
      viewsetRunBooking.booking_id := by
  obtain ⟨h1, h2, h3, h4, h5, h6, h7, h8, h9⟩ :=
    C7_booking_id_unique_immutable 1700000000 1700000000 ⟨0, 0, 0, 0⟩
      ⟨0, 0, 0, 1⟩ 1 2 1 sampleViewsetInput sampleCreateInput emptyDB
      viewsetRunDB createRunDB viewsetRunBooking createRunBooking
      (by constructor <;> simp [storeBookingIds, emptyDB]) rfl rfl
  exact ⟨h1, h2, h3, h4, h5 true true "admin1" "confirmed" 5 [],
    h6 [] 1 5 [], h7 5 [], h8 "vip" 5, h9 5 ⟨1, 2, 3, 4⟩⟩

/-- `BookingCreateSerializer` validation rejects every payload matching the
spec's rejection conditions (possibly via an earlier field check, which is
still a validation error). -/
theorem bookingCreate_validate_rejects (now : Nat) (d : BookingCreateInput)
    (h : RejectedDates d.tripType d.pickupDate d.dropoffDate now) :
    ∃ msg, bookingCreate_validate now d = .error msg := by
  unfold bookingCreate_validate
  by_cases h1 : d.pickupDate < now
  · rw [if_pos h1]
    exact ⟨_, rfl⟩
  · rw [if_neg h1]
    by_cases h2 : d.totalPrice ≤ 0
    · rw [if_pos h2]
      exact ⟨_, rfl⟩
    · rw [if_neg h2]
      by_cases h3 : d.distance ≤ 0
      · rw [if_pos h3]
        exact ⟨_, rfl⟩
      · rw [if_neg h3]
        rcases h with ⟨hrt, hnone⟩ | ⟨hrt, r, hr, hle⟩ | hpast
        · rw [if_pos hrt, hnone]
          exact ⟨_, rfl⟩
        · rw [if_pos hrt, hr]
          exact ⟨"Drop-off date must be after pickup date.", by simp [hle]⟩
        · exact absurd hpast h1

/-- `InquirySerializer` validation rejects every payload matching the
spec's rejection conditions (possibly via an earlier field check, which is
still a validation error). -/
theorem inquirySerializer_validate_rejects (now : Nat) (cts : List CarType)
    (d : InquiryInput)
    (h : RejectedDates d.trip_type d.datetime d.return_datetime now) :
    ∃ msg, inquirySerializer_validate now cts d = .error msg := by
  unfold inquirySerializer_validate
  by_cases h1 : d.datetime < now
  · rw [if_pos h1]
    exact ⟨_, rfl⟩
  · rw [if_neg h1]
    by_cases h2 : invalid_fk cts d.car_type = true
    · rw [if_pos h2]
      exact ⟨_, rfl⟩
    · rw [if_neg h2]
      by_cases h3 : invalid_choice TRIP_CHOICES (some d.trip_type) = true
      · rw [if_pos h3]
        exact ⟨_, rfl⟩
      · rw [if_neg h3]
        by_cases h4 : invalid_choice STATUS_CHOICES d.status = true
        · rw [if_pos h4]
          exact ⟨_, rfl⟩
        · rw [if_neg h4]
          by_cases h5 : d.distance_km < 0
          · rw [if_pos h5]
            exact ⟨_, rfl⟩
          · rw [if_neg h5]
            by_cases h6 : d.price < 0
            · rw [if_pos h6]
              exact ⟨_, rfl⟩
            · rw [if_neg h6]
              rcases h with ⟨hrt, hnone⟩ | ⟨hrt, r, hr, hle⟩ | hpast
              · rw [if_pos hrt, hnone]
                exact ⟨_, rfl⟩
              · rw [if_pos hrt, hr]
                exact ⟨"Return date must be after pickup date.", by simp [hle]⟩
              · exact absurd hpast h1

/-- C4: on every creation path exposed by the program's urlconf — the plain
`/api/inquiry/` create action and the three `BookingCreateSerializer`
endpoints (`/api/inquiry/create-booking/`, `/api/bookings/`,
`/api/car-booking/`) — a round-trip request without a return time, a
round-trip request whose return time is not strictly after the pickup, or a
request whose pickup lies in the past at submission time fails with a
validation error and creates no booking. -/
theorem C4_exposed_creation_paths_validate
    (now : Nat) (rand : Fin 10 × Fin 10 × Fin 10 × Fin 10) (pk ctPk : Nat)
    (d : BookingCreateInput) (e : InquiryInput) (db : DB)
    (hd : RejectedDates d.tripType d.pickupDate d.dropoffDate now)
    (he : RejectedDates e.trip_type e.datetime e.return_datetime now) :
    (∃ msg, run_bookingCreate_path now rand pk ctPk d db = .error msg) ∧
    (∃ msg, run_inquiryViewset_create now rand pk e db = .error msg) := by
  constructor
  · obtain ⟨msg, hmsg⟩ := bookingCreate_validate_rejects now d hd
    refine ⟨msg, ?_⟩
    unfold run_bookingCreate_path
    rw [hmsg]
  · obtain ⟨msg, hmsg⟩ := inquirySerializer_validate_rejects now db.carTypes e he
    refine ⟨msg, ?_⟩
    unfold run_inquiryViewset_create
    rw [hmsg]

/-- Witness for C4: both concrete round-trip-without-return payloads are
rejected on their respective exposed paths. -/
theorem C4_exposed_creation_paths_validate_witness :
    (∃ msg, run_bookingCreate_path 1700000000 ⟨0, 0, 0, 0⟩ 1 1
        sampleBadCreateInput emptyDB = .error msg) ∧
    (∃ msg, run_inquiryViewset_create 1700000000 ⟨0, 0, 0, 0⟩ 1
        sampleBadViewsetInput emptyDB = .error msg) :=
  C4_exposed_creation_paths_validate 1700000000 ⟨0, 0, 0, 0⟩ 1 1
    sampleBadCreateInput sampleBadViewsetInput emptyDB
    (Or.inl ⟨rfl, rfl⟩) (Or.inl ⟨rfl, rfl⟩)

/-- A successful `BookingCreateSerializer` validation returns the payload
unchanged. -/
theorem bookingCreate_validate_ok_eq (now : Nat) (d d2 : BookingCreateInput)
    (h : bookingCreate_validate now d = .ok d2) : d2 = d := by
  unfold bookingCreate_validate at h
  by_cases h1 : d.pickupDate < now
  · rw [if_pos h1] at h
    exact absurd h (by simp)
  · rw [if_neg h1] at h
    by_cases h2 : d.totalPrice ≤ 0
    · rw [if_pos h2] at h
      exact absurd h (by simp)
    · rw [if_neg h2] at h
      by_cases h3 : d.distance ≤ 0
      · rw [if_pos h3] at h
        exact absurd h (by simp)
      · rw [if_neg h3] at h
        by_cases h4 : d.tripType = "round-trip"
        · rw [if_pos h4] at h
          cases hd : d.dropoffDate with
          | none =>
              rw [hd] at h
              exact absurd h (by simp)
          | some r =>
              rw [hd] at h
              by_cases h5 : r ≤ d.pickupDate
              · simp [h5] at h
              · simp [h5] at h
                exact h.symm
        · rw [if_neg h4] at h
          simp at h
          exact h.symm

/-- C5: "every successful booking creation appends exactly one initial
Transition Log row … on any creation path exposed by the program" —
refuted: the plain `ModelViewSet` create action (POST `/api/inquiry/`)
creates a pending booking and writes no history row at all. -/
theorem C5_creation_event_not_universal : ¬ EveryCreationLogsCreationEvent := by
  intro h
  have h2 := h.1 1700000000 ⟨0, 0, 0, 0⟩ 1 sampleViewsetInput emptyDB
    viewsetRunBooking viewsetRunDB rfl
  exact absurd h2.2 (by decide)

/-- C5 (amended): on the `BookingCreateSerializer` creation paths
(`/api/inquiry/create-booking/`, `/api/bookings/`, `/api/car-booking/`),
every successful creation stores the booking with status `pending` and
appends exactly one initial Transition Log row with `old_status = ""`,
`new_status = "pending"` and actor `"Customer"`; the plain
`/api/inquiry/` create action, by contrast, writes no such row, so a
booking can exist without a creation event in its log. -/
theorem C5_bookingCreate_paths_log_creation_event (now : Nat)
    (rand : Fin 10 × Fin 10 × Fin 10 × Fin 10) (pk ctPk : Nat)
    (d : BookingCreateInput) (db : DB) (b : Booking) (db2 : DB)
    (h : run_bookingCreate_path now rand pk ctPk d db = .ok (b, db2)) :
    b.status = "pending" ∧
    db2.history = db.history ++ [initialHistoryRow pk] ∧
    db2.bookings = db.bookings ++ [b] ∧
    (initialHistoryRow pk).old_status = "" ∧
    (initialHistoryRow pk).new_status = "pending" ∧
    (initialHistoryRow pk).changed_by = "Customer" := by
  obtain ⟨d2, hv, hc⟩ := run_bookingCreate_path_ok _ _ _ _ _ _ _ _ h
  obtain ⟨hb, hst, hbid, hh, hbk, hct, hnot⟩ :=
    bookingCreateSerializer_create_ok _ _ _ _ _ _ _ _ hc
  exact ⟨hst, hh, hbk, rfl, rfl, rfl⟩

/-- Witness for C5 (amended): the concrete `BookingCreateSerializer`
creation appends exactly the initial log row. -/
theorem C5_bookingCreate_paths_log_creation_event_witness :
    createRunBooking.status = "pending" ∧
    createRunDB.history = viewsetRunDB.history ++ [initialHistoryRow 2] ∧
    createRunDB.bookings = viewsetRunDB.bookings ++ [createRunBooking] ∧
    (initialHistoryRow 2).old_status = "" ∧
    (initialHistoryRow 2).new_status = "pending" ∧
    (initialHistoryRow 2).changed_by = "Customer" :=
  C5_bookingCreate_paths_log_creation_event 1700000000 ⟨0, 0, 0, 1⟩ 2 1
    sampleCreateInput viewsetRunDB createRunBooking createRunDB rfl

/-- C10: when the requested car-category name matches no stored Car Type
case-insensitively, a successful API creation does not report not-found:
the store gains a new active Car Type named after the request (first letter
capitalised) with the default per-km rate — 12 for "hatchback", 15 for
"sedan", 18 otherwise — and the created booking references it. -/
theorem C10_unknown_car_type_auto_created (now : Nat)
    (rand : Fin 10 × Fin 10 × Fin 10 × Fin 10) (pk ctPk : Nat)
    (d : BookingCreateInput) (db : DB) (b : Booking) (db2 : DB)
    (hNoMatch : ∀ ct ∈ db.carTypes, ct.name.toLower ≠ d.carType.toLower)
    (hRun : run_bookingCreate_path now rand pk ctPk d db = .ok (b, db2)) :
    db2.carTypes = db.carTypes ++
      [{ pk := ctPk
         name := capitalizeLowered d.carType.toLower
         rate_per_km := if d.carType.toLower = "hatchback" then 12
           else if d.carType.toLower = "sedan" then 15 else 18
         minimum_distance_cap := 0
         is_active := true }] ∧
    b.car_type = some ctPk := by
  obtain ⟨d2, hv, hc⟩ := run_bookingCreate_path_ok _ _ _ _ _ _ _ _ hRun
  rw [bookingCreate_validate_ok_eq now d d2 hv] at hc
  obtain ⟨hb, hst, hbid, hh, hbk, hct, hnot⟩ :=
    bookingCreateSerializer_create_ok _ _ _ _ _ _ _ _ hc
  have hfind : db.carTypes.find?
      (fun ct => ct.name.toLower = d.carType.toLower) = none := by
    apply List.find?_eq_none.2
    intro x hx
    simpa using hNoMatch x hx
  have hg : get_or_create_car_type db.carTypes d.carType ctPk =
      ({ pk := ctPk
         name := capitalizeLowered d.carType.toLower
         rate_per_km := if d.carType.toLower = "hatchback" then 12
           else if d.carType.toLower = "sedan" then 15 else 18
         minimum_distance_cap := 0
         is_active := true },
       db.carTypes ++
         [{ pk := ctPk
            name := capitalizeLowered d.carType.toLower
            rate_per_km := if d.carType.toLower = "hatchback" then 12
              else if d.carType.toLower = "sedan" then 15 else 18
            minimum_distance_cap := 0
            is_active := true }], true) := by
    simp only [get_or_create_car_type]
    rw [hfind]
  constructor
  · rw [hct, hg]
  · rw [hb, hg]
    rfl

/-- Witness for C10: the concrete creation with requested category "sedan"
over a store with no car types creates the default sedan type (rate 15) and
references it. -/
theorem C10_unknown_car_type_auto_created_witness :
    createRunDB.carTypes = viewsetRunDB.carTypes ++
      [{ pk := 1
         name := capitalizeLowered sampleCreateInput.carType.toLower
         rate_per_km :=
           if sampleCreateInput.carType.toLower = "hatchback" then 12
           else if sampleCreateInput.carType.toLower = "sedan" then 15 else 18
         minimum_distance_cap := 0
         is_active := true }] ∧
    createRunBooking.car_type = some 1 :=
  C10_unknown_car_type_auto_created 1700000000 ⟨0, 0, 0, 1⟩ 2 1
    sampleCreateInput viewsetRunDB createRunBooking createRunDB
    (by
      intro ct hct
      rw [show viewsetRunDB.carTypes = [] from rfl] at hct
      exact absurd hct (List.not_mem_nil ct))
    rfl

end Jeerawala
